import Mathlib

/-!
Verification of the bank-scraper repository: shallow embeddings of the BBVA
parsing pipeline (`internal/scraper/bank/bbva/parser.go`), the login
classification (`internal/scraper/bank/bbva/scraper.go`), the shadow-DOM
flattening script (browser package), and the HTTP replay matching engine
(`internal/scraper/testutil`), together with theorems about them.
-/

namespace BankScraper

/-! ## Go string utilities -/

/-- `strings.NewReplacer(",", "", " ", "").Replace s`: delete every comma and
every space character, at any position. -/
def cleanAmount (s : String) : String :=
  String.mk (s.data.filter (fun c => !(c == ',') && !(c == ' ')))

/-- ASCII fragment of Go `unicode.IsSpace`. -/
def isGoSpace (c : Char) : Bool :=
  c == ' ' || c == '\t' || c == '\n' || c == '\r' || c == '\x0b' || c == '\x0c'

/-- Go `strings.TrimSpace`: drop leading and trailing whitespace. -/
def goTrimSpace (s : String) : String :=
  String.mk (((s.data.dropWhile isGoSpace).reverse.dropWhile isGoSpace).reverse)

/-- Lowercase an ASCII character. -/
def lowerChar (c : Char) : Char :=
  if 65 ≤ c.toNat ∧ c.toNat ≤ 90 then Char.ofNat (c.toNat + 32) else c

/-- ASCII lowercasing: the fragment of `strings.ToLower` and of the JS
`toLowerCase` that these pages exercise. -/
def asciiLower (s : String) : String :=
  String.mk (s.data.map lowerChar)

/-! ## Exact model of IEEE-754 binary64 arithmetic

Go float64 values are modelled by their exact dyadic value, so that
`strconv.ParseFloat`, a multiplication by 100 and `math.Round` can be
computed with integer arithmetic only. -/

/-- Round `num / den` (with `den > 0`) to the nearest integer, ties to even. -/
def divRoundNearestEven (num den : Nat) : Nat :=
  let q := num / den
  let r := num % den
  if den < 2 * r then q + 1
  else if 2 * r < den then q
  else if q % 2 = 0 then q else q + 1

/-- Floor base-2 logarithm by halving, structurally on fuel. -/
def log2Fuel : Nat → Nat → Nat
  | 0, _ => 0
  | fuel + 1, n => if n ≤ 1 then 0 else log2Fuel fuel (n / 2) + 1

/-- `Nat.log2`, with enough fuel to be computable inside the kernel for every
magnitude a binary64 computation produces. -/
def natLog2 (n : Nat) : Nat := log2Fuel 4200 n

/-- Floor of the base-2 logarithm of the positive rational `a / b`. -/
def floorLog2Rat (a b : Nat) : Int :=
  let l : Int := (natLog2 a : Int) - (natLog2 b : Int)
  if 0 ≤ l then
    if b * 2 ^ l.toNat ≤ a then l else l - 1
  else
    if b ≤ a * 2 ^ (-l).toNat then l else l - 1

/-- Round the positive rational `a / b` to the nearest binary64 (round to
nearest, ties to even, subnormals included), returned as a pair
`(mant, exp2)` whose value is `mant * 2 ^ exp2`; `none` signals overflow to
infinity. -/
def roundPosRatToFloat64 (a b : Nat) : Option (Nat × Int) :=
  let e := floorLog2Rat a b
  let p : Int := max (e - 52) (-1074)
  let mant :=
    if 0 ≤ p then divRoundNearestEven a (b * 2 ^ p.toNat)
    else divRoundNearestEven (a * 2 ^ (-p).toNat) b
  if 972 ≤ p ∨ (p = 971 ∧ 2 ^ 53 ≤ mant) then none
  else some (mant, p)

/-- The value of a Go float64: an exact dyadic rational, an infinity, or NaN. -/
inductive GoFloat where
  | finite (neg : Bool) (mant : Nat) (exp2 : Int)
  | infinite (neg : Bool)
  | nan
  deriving DecidableEq, Repr

/-- Digits to a natural number, most significant first. -/
def digitsToNat (ds : List Char) : Nat :=
  ds.foldl (fun acc c => acc * 10 + (c.toNat - 48)) 0

/-- Split a character list into its leading digit run and the rest. -/
def spanDigits (cs : List Char) : List Char × List Char :=
  (cs.takeWhile Char.isDigit, cs.dropWhile Char.isDigit)

/-- Decimal-literal fragment of the Go `strconv.ParseFloat` grammar: optional
sign, digits with an optional dot (at least one digit overall), optional
decimal exponent, the whole string consumed.  Returns the sign, the integer
mantissa and the base-10 exponent. -/
def readDecimalFloat (cs0 : List Char) : Option (Bool × Nat × Int) :=
  let signed :=
    match cs0 with
    | '+' :: rest => (false, rest)
    | '-' :: rest => (true, rest)
    | rest => (false, rest)
  let neg := signed.1
  let (intPart, cs2) := spanDigits signed.2
  let fraced :=
    match cs2 with
    | '.' :: rest => spanDigits rest
    | _ => ([], cs2)
  let fracPart := fraced.1
  if intPart.isEmpty && fracPart.isEmpty then none
  else
    let mant := digitsToNat (intPart ++ fracPart)
    let fracLen : Int := (fracPart.length : Int)
    match fraced.2 with
    | [] => some (neg, mant, -fracLen)
    | e :: rest =>
      if e == 'e' || e == 'E' then
        let esigned :=
          match rest with
          | '+' :: r => (false, r)
          | '-' :: r => (true, r)
          | r => (false, r)
        let (eds, rest2) := spanDigits esigned.2
        if eds.isEmpty || !rest2.isEmpty then none
        else
          let ev : Int := (digitsToNat eds : Int)
          some (neg, mant, (if esigned.1 then -ev else ev) - fracLen)
      else none

/-- The special forms recognised by Go `strconv.ParseFloat`: optionally signed
"inf" / "infinity" and unsigned "nan", case-insensitively, as whole strings. -/
def readSpecial (s : String) : Option GoFloat :=
  let t := asciiLower s
  if t == "inf" || t == "+inf" || t == "infinity" || t == "+infinity" then
    some (.infinite false)
  else if t == "-inf" || t == "-infinity" then some (.infinite true)
  else if t == "nan" then some .nan
  else none

/-- Go `strconv.ParseFloat(s, 64)` on its decimal and special forms, with the
documented correct rounding (hexadecimal-float and digit-separator forms are
outside the modelled fragment).  `none` models `err != nil`: a syntax error or
an overflow range error. -/
def goParseFloat (s : String) : Option GoFloat :=
  match readSpecial s with
  | some f => some f
  | none =>
    match readDecimalFloat s.data with
    | none => none
    | some (neg, mant, exp10) =>
      if mant = 0 then some (.finite neg 0 0)
      else if 0 ≤ exp10 then
        match roundPosRatToFloat64 (mant * 10 ^ exp10.toNat) 1 with
        | none => none
        | some (m, p) => some (.finite neg m p)
      else
        match roundPosRatToFloat64 mant (10 ^ (-exp10).toNat) with
        | none => none
        | some (m, p) => some (.finite neg m p)

/-- IEEE-754 multiplication of a float64 by 100 (round to nearest even), as in
the expression `floatVal * 100`. -/
def goMul100 : GoFloat → GoFloat
  | .finite neg m p =>
    if m = 0 then .finite neg 0 0
    else
      let r :=
        if 0 ≤ p then roundPosRatToFloat64 (m * 100 * 2 ^ p.toNat) 1
        else roundPosRatToFloat64 (m * 100) (2 ^ (-p).toNat)
      match r with
      | none => .infinite neg
      | some (m2, p2) => .finite neg m2 p2
  | .infinite neg => .infinite neg
  | .nan => .nan

/-- Go `math.Round`: round to the nearest integer, ties away from zero;
infinities and NaN are preserved. -/
def goMathRound : GoFloat → GoFloat
  | .finite neg m p =>
    if 0 ≤ p then .finite neg (m * 2 ^ p.toNat) 0
    else
      let den := 2 ^ (-p).toNat
      let q := m / den
      let r := m % den
      .finite neg (if den ≤ 2 * r then q + 1 else q) 0
  | f => f

/-- Go `int64(f)` conversion: truncation toward zero when the value fits;
out-of-range values, infinities and NaN follow the amd64 behaviour
(result `-2^63`). -/
def goInt64OfFloat : GoFloat → Int
  | .finite neg m p =>
    let t : Nat := if 0 ≤ p then m * 2 ^ p.toNat else m / 2 ^ (-p).toNat
    let v : Int := if neg then -(t : Int) else (t : Int)
    if -(2 ^ 63) ≤ v ∧ v ≤ 2 ^ 63 - 1 then v else -(2 ^ 63)
  | _ => -(2 ^ 63)

/-! ## `ParseSpanishAmount` and `ParseBankDate`
(`internal/scraper/bank/bbva/parser.go`, low level utilities) -/

/-- `ParseSpanishAmount`: strip commas and spaces, parse the remainder with
`strconv.ParseFloat`, and return `int64(math.Round(floatVal * 100))`;
`none` models a non-nil error. -/
def ParseSpanishAmount (s : String) : Option Int :=
  let cleanStr := cleanAmount s
  match goParseFloat cleanStr with
  | none => none
  | some floatVal => some (goInt64OfFloat (goMathRound (goMul100 floatVal)))

/-- A calendar date as produced by Go `time.Parse`. -/
structure GoDate where
  year : Int
  month : Nat
  day : Nat
  deriving DecidableEq, Repr

/-- Gregorian leap-year rule (Go `time.isLeap`). -/
def isLeapYear (y : Int) : Bool :=
  y % 4 == 0 && (y % 100 != 0 || y % 400 == 0)

/-- Number of days in a month (Go `time.daysIn`). -/
def daysInMonth (y : Int) (m : Nat) : Nat :=
  if m = 2 then (if isLeapYear y then 29 else 28)
  else if m = 4 ∨ m = 6 ∨ m = 9 ∨ m = 11 then 30
  else 31

/-- Exactly two digits, as for a zero-padded layout field. -/
def twoDigits : List Char → Option (Nat × List Char)
  | a :: b :: rest =>
    if a.isDigit && b.isDigit then
      some ((a.toNat - 48) * 10 + (b.toNat - 48), rest)
    else none
  | _ => none

/-- Exactly four digits, as for the long-year layout field. -/
def fourDigits : List Char → Option (Nat × List Char)
  | a :: b :: c :: d :: rest =>
    if a.isDigit && b.isDigit && c.isDigit && d.isDigit then
      some ((((a.toNat - 48) * 10 + (b.toNat - 48)) * 10 + (c.toNat - 48)) * 10
        + (d.toNat - 48), rest)
    else none
  | _ => none

/-- `ParseBankDate`: `time.Parse("02-01-2006", strings.TrimSpace(s))` — the
fixed zero-padded day-month-year layout, with the month and day range checks
done by `time.Parse`, and any leftover text rejected. -/
def ParseBankDate (s : String) : Option GoDate :=
  let cs := (goTrimSpace s).data
  match twoDigits cs with
  | none => none
  | some (d, cs1) =>
    match cs1 with
    | '-' :: cs2 =>
      match twoDigits cs2 with
      | none => none
      | some (mo, cs3) =>
        match cs3 with
        | '-' :: cs4 =>
          match fourDigits cs4 with
          | none => none
          | some (y, cs5) =>
            if cs5.isEmpty ∧ 1 ≤ mo ∧ mo ≤ 12 ∧ 1 ≤ d ∧ d ≤ daysInMonth (y : Int) mo then
              some ⟨(y : Int), mo, d⟩
            else none
        | _ => none
    | _ => none

/-! ## Bank domain types (`internal/scraper/bank/types.go`) -/

/-- `bank.TransactionType`: CREDIT (money in) or DEBIT (money out). -/
inductive TransactionType where
  | credit
  | debit
  deriving DecidableEq, Repr

/-- `bank.Transaction`, restricted to the fields set by the BBVA row
conversion (dates are `GoDate` values; `amount` is an int64 cents value). -/
structure Transaction where
  id : String
  reference : String
  date : GoDate
  valueDate : GoDate
  description : String
  amount : Int
  txnType : TransactionType
  extra : List (String × String)
  deriving DecidableEq, Repr

/-- Two's-complement wrap of an integer into the int64 range. -/
def wrap64 (x : Int) : Int :=
  (x + 2 ^ 63) % 2 ^ 64 - 2 ^ 63

/-- `BBVARow`: a raw row of the BBVA transactions HTML table.  `importe` is an
int64 carrying two-decimal precision and may be negative. -/
structure BBVARow where
  fOperacion : GoDate
  fValor : GoDate
  codigo : String
  nDoc : String
  concepto : String
  importe : Int
  oficina : String
  deriving DecidableEq, Repr

/-- `BBVARow.IsPositiveImport`: `r.Importe > 0`. -/
def BBVARow.IsPositiveImport (r : BBVARow) : Bool :=
  0 < r.importe

/-- `BBVARow.ToTransaction`: the credit/debit type is derived from the sign of
`Importe` and the stored amount is the int64 negation of a non-positive raw
value (`absAmount = -absAmount`, which wraps in two's complement). -/
def BBVARow.ToTransaction (r : BBVARow) : Transaction :=
  let step : Int × TransactionType :=
    if !r.IsPositiveImport then (wrap64 (-r.importe), .debit)
    else (r.importe, .credit)
  { id := r.nDoc
    reference := ""
    date := r.fOperacion
    valueDate := r.fValor
    description := r.concepto
    amount := step.1
    txnType := step.2
    extra := [("Office", r.oficina), ("Codigo", r.codigo)] }

/-! ## `ParseTransactions` (`internal/scraper/bank/bbva/parser.go`)

The transactions page is modelled by the observations the parser makes of the
goquery document: whether the table selected by `SelectorTransactionsTable`
exists, its `state` attribute, and the list of rows selected by
`SelectorTransactionRow` (each row an opaque list of cell texts). -/

/-- The goquery observations of a transactions page. -/
structure TransactionsPage where
  hasTable : Bool
  tableState : Option String
  rows : List (List String)
  deriving DecidableEq, Repr

/-- `hasNoMovements`: the table exists, carries a `state` attribute, and that
attribute equals "noresults". -/
def hasNoMovements (page : TransactionsPage) : Bool :=
  if !page.hasTable then false
  else
    match page.tableState with
    | none => false
    | some st => st == "noresults"

/-- Outcome of parsing one row: a Go panic, a returned error, or a row. -/
inductive RowParseResult where
  | panicRes (msg : String)
  | errRes (msg : String)
  | okRes (r : BBVARow)
  deriving DecidableEq, Repr

/-- `parseTransactionRow` as committed: the body is `panic("fix me")`
(marked `FIXME: REFACTOR THIS`), so every call panics. -/
def parseTransactionRow (_cells : List String) : RowParseResult :=
  .panicRes "fix me"

/-- Outcome of `ParseTransactions`: a Go panic escaping the call, a non-nil
error together with a nil slice, or a transaction slice with a nil error. -/
inductive TxParseResult where
  | panicked (msg : String)
  | failed (msg : String)
  | ok (txns : List Transaction)
  deriving DecidableEq, Repr

/-- The `txnRows.Each` loop of `ParseTransactions`: the first row error stops
the iteration and fails the call with the row index in the message; a row
panic escapes the whole call. -/
def parseRowsLoop (i : Nat) : List (List String) → TxParseResult
  | [] => .ok []
  | cells :: rest =>
    match parseTransactionRow cells with
    | .panicRes msg => .panicked msg
    | .errRes msg => .failed ("failed to parse row: " ++ toString i ++ ": " ++ msg)
    | .okRes row =>
      match parseRowsLoop (i + 1) rest with
      | .ok txns => .ok (row.ToTransaction :: txns)
      | other => other

/-- `ParseTransactions`: the no-movements state returns an empty, non-nil
slice with a nil error; a missing table is a `ParsingFailed` error; otherwise
the rows are parsed in order. -/
def ParseTransactions (page : TransactionsPage) : TxParseResult :=
  if hasNoMovements page then .ok []
  else if !page.hasTable then
    .failed "failed to parse bank response: table not found with selector"
  else parseRowsLoop 0 page.rows

/-! ## Login classification
(`DetectLoginError` in parser.go and `BBVAScraper.Login` in scraper.go) -/

/-- The goquery observations `DetectLoginError` makes of the response markup:
the raw text of the error-code block, the error span and the fallback
error-message heading. -/
structure LoginErrorDoc where
  codeText : String
  spanText : String
  messageText : String
  deriving DecidableEq, Repr

/-- `LoginErrorInfo` with its code, message and HTTP status fields. -/
structure LoginErrorInfo where
  code : String
  message : String
  httpStatus : Nat
  deriving DecidableEq, Repr

/-- `DetectLoginError`: statuses 503 and 429 map to the unavailable message,
403 to the bot-detection message; otherwise the markup is searched for an
error code and message, and `none` (a nil error) is returned when both are
empty after trimming. -/
def DetectLoginError (doc : LoginErrorDoc) (statusCode : Nat) : Option LoginErrorInfo :=
  if statusCode = 503 ∨ statusCode = 429 then
    some { code := ""
           message := "Bank service temporarily unavailable or rate limited"
           httpStatus := statusCode }
  else if statusCode = 403 then
    some { code := ""
           message := "Access forbidden - possible bot detection"
           httpStatus := statusCode }
  else
    let code := goTrimSpace doc.codeText
    let msg0 := goTrimSpace doc.spanText
    let msg := if msg0 == "" then goTrimSpace doc.messageText else msg0
    if code = "" ∧ msg = "" then none
    else some { code := code, message := msg, httpStatus := statusCode }

/-- The `Cause` a login attempt ends with (`bank.Err...` values), or success. -/
inductive LoginCause where
  | invalidCredentials
  | botDetection
  | bankUnavailable
  | unknownCause
  | success
  deriving DecidableEq, Repr

/-- The classification step of `BBVAScraper.Login` after the page HTML and the
submission status are captured: a non-nil `DetectLoginError` result yields
cause `ErrInvalidCredentials`, remapped to `ErrBotDetection` only when the
HTTP status is 403; otherwise the dashboard check decides between success and
`ErrUnknown`. -/
def classifyLogin (doc : LoginErrorDoc) (statusCode : Nat)
    (dashboardPresent : Bool) : LoginCause :=
  match DetectLoginError doc statusCode with
  | some info =>
    if info.httpStatus = 403 then .botDetection else .invalidCredentials
  | none => if dashboardPresent then .success else .unknownCause

/-! ## DOM flattening engine (`flattenShadowDOMJS`, browser package)

A DOM node is a text node or an element with a tag (stored uppercase, as DOM
`tagName` reports it), attributes, an optional attached shadow root (a list of
shadow child nodes), an optional iframe content document, and light-DOM
children.  `outerHTML` serialisation shows only `children`; shadow roots and
iframe documents are invisible to it. -/

inductive DNode where
  | text (s : String)
  | elem (tag : String) (attrs : List (String × String)) (shadow : Option (List DNode))
      (contentDoc : Option DNode) (children : List DNode)
  deriving Repr

/-- First attribute value for `name`, or a default (`el.getAttribute`-like
access used for `iframe.src`, `iframe.id`, `iframe.name`). -/
def attrOr (attrs : List (String × String)) (name dflt : String) : String :=
  match attrs.find? (fun p => p.1 == name) with
  | some p => p.2
  | none => dflt

mutual

/-- `textContent` of a node: all descendant text, shadow excluded. -/
def nodeTextContent : DNode → String
  | .text s => s
  | .elem _ _ _ _ ch => listTextContent ch

/-- `textContent` concatenated over a node list. -/
def listTextContent : List DNode → String
  | [] => ""
  | n :: ns => nodeTextContent n ++ listTextContent ns

end

mutual

/-- `querySelectorAll('style')` on a subtree: descendant elements with tag
STYLE, in document order, shadow roots not pierced. -/
def collectStylesNode : DNode → List DNode
  | .text _ => []
  | .elem t a sh cd ch =>
    (if t == "STYLE" then [DNode.elem t a sh cd ch] else []) ++ collectStylesList ch

/-- `querySelectorAll('style')` over a node list. -/
def collectStylesList : List DNode → List DNode
  | [] => []
  | n :: ns => collectStylesNode n ++ collectStylesList ns

end

/-- The shadow marker built by `flattenShadow`: a div carrying
`data-shadow-root` and the lowercased host tag, holding copies of the shadow
styles (tagged `data-from-shadow`) followed by the non-style shadow content. -/
def shadowContainer (hostTag : String) (shadowKids : List DNode) : DNode :=
  let styles := (collectStylesList shadowKids).map (fun st =>
    DNode.elem "STYLE" [("data-from-shadow", "true")] none none [.text (nodeTextContent st)])
  let content := shadowKids.filter (fun n =>
    match n with
    | .elem t _ _ _ _ => !(t == "STYLE")
    | .text _ => true)
  DNode.elem "DIV" [("data-shadow-root", "true"), ("data-shadow-host", asciiLower hostTag)]
    none none (styles ++ content)

/-- First element child with the given tag (`document.head` / `document.body`
of an iframe document). -/
def findChildTag (n : DNode) (tag : String) : Option DNode :=
  match n with
  | .text _ => none
  | .elem _ _ _ _ ch =>
    ch.find? (fun c =>
      match c with
      | .elem t _ _ _ _ => t == tag
      | _ => false)

/-- The iframe marker built by `inlineIframe` from an accessible, already
flattened iframe document: head styles copied with `data-from-iframe`, then
the body children. -/
def iframeContainer (iframeAttrs : List (String × String)) (doc : DNode) : DNode :=
  let headStyles :=
    match findChildTag doc "HEAD" with
    | some (.elem _ _ _ _ hch) => (collectStylesList hch).map (fun st =>
        DNode.elem "STYLE" [("data-from-iframe", "true")] none none [.text (nodeTextContent st)])
    | _ => []
  let bodyKids :=
    match findChildTag doc "BODY" with
    | some (.elem _ _ _ _ bch) => bch
    | _ => []
  DNode.elem "DIV"
    [("data-captured-iframe", "true"),
     ("data-iframe-src", attrOr iframeAttrs "src" ""),
     ("data-iframe-id", attrOr iframeAttrs "id" ""),
     ("data-iframe-name", attrOr iframeAttrs "name" "")]
    none none (headStyles ++ bodyKids)

/-- The marker built by `markIframeError` for inaccessible iframe documents. -/
def iframeErrorMarker (message src : String) : DNode :=
  DNode.elem "DIV"
    [("data-captured-iframe", "true"), ("data-iframe-error", message),
     ("data-iframe-src", src)]
    none none [.text ("[iframe not accessible: " ++ message ++ "]")]

mutual

/-- The child loop of `flattenNode`: element children go through
`flattenElement` at the given depth, text nodes are untouched; shadow and
iframe counts are summed. -/
def flattenChildren (depth : Nat) : List DNode → List DNode × Nat × Nat
  | [] => ([], 0, 0)
  | n :: ns =>
    let hd :=
      match n with
      | .text s => (DNode.text s, 0, 0)
      | .elem _ _ _ _ _ => flattenElement depth n
    let tl := flattenChildren depth ns
    (hd.1 :: tl.1, hd.2.1 + tl.2.1, hd.2.2 + tl.2.2)

/-- `flattenElement`: depth guard, then the iframe branch (`inlineIframe`,
which replaces the iframe with its marker), then the shadow branch
(`flattenShadow`, which recurses into the shadow children only and appends
the shadow marker after the untouched light-DOM children), and otherwise
`flattenNode(el, depth + 1)` on the element children. -/
def flattenElement (depth : Nat) : DNode → DNode × Nat × Nat
  | .text s => (.text s, 0, 0)
  | .elem tag attrs shadow contentDoc children =>
    if depth > 100 then (.elem tag attrs shadow contentDoc children, 0, 0)
    else if tag == "IFRAME" then
      match contentDoc with
      | none =>
        (iframeErrorMarker "no contentDocument available" (attrOr attrs "src" ""), 0, 0)
      | some doc =>
        match doc with
        | .text s =>
          (iframeContainer attrs (.text s), 0, 1)
        | .elem dt da dsh dcd dch =>
          let inner :=
            if depth + 1 > 100 then (dch, 0, 0) else flattenChildren (depth + 1) dch
          (iframeContainer attrs (.elem dt da dsh dcd inner.1),
            inner.2.1, inner.2.2 + 1)
    else
      match shadow with
      | some shadowKids =>
        let inner := flattenChildren (depth + 1) shadowKids
        (.elem tag attrs (some inner.1) contentDoc
            (children ++ [shadowContainer tag inner.1]),
          inner.2.1 + 1, inner.2.2)
      | none =>
        if depth + 1 > 100 then (.elem tag attrs shadow contentDoc children, 0, 0)
        else
          let inner := flattenChildren (depth + 1) children
          (.elem tag attrs shadow contentDoc inner.1, inner.2.1, inner.2.2)

end

/-- `flattenNode`: the depth guard plus the element-child loop, used for the
document root (and inlined above for iframe documents and regular elements). -/
def flattenNode (depth : Nat) : DNode → DNode × Nat × Nat
  | .text s => (.text s, 0, 0)
  | .elem t a sh cd ch =>
    if depth > 100 then (.elem t a sh cd ch, 0, 0)
    else
      let inner := flattenChildren depth ch
      (.elem t a sh cd inner.1, inner.2.1, inner.2.2)

/-- The body of `FlattenShadowDOM`: `flattenNode(document.documentElement, 0)`
followed by serialising the mutated root, with the shadow and iframe counts. -/
def FlattenShadowDOM (root : DNode) : DNode × Nat × Nat :=
  flattenNode 0 root

mutual

/-- Does the serialised output (`outerHTML`, which shows neither shadow roots
nor iframe content documents) contain a node satisfying `p`? -/
def nodeVisContains (p : DNode → Bool) : DNode → Bool
  | .text s => p (.text s)
  | .elem t a sh cd ch => p (.elem t a sh cd ch) || listVisContains p ch

/-- `nodeVisContains` over a node list. -/
def listVisContains (p : DNode → Bool) : List DNode → Bool
  | [] => false
  | n :: ns => nodeVisContains p n || listVisContains p ns

end

/-- Is this node the shadow marker for the given (lowercase) host tag? -/
def isShadowMarkerFor (host : String) (n : DNode) : Bool :=
  match n with
  | .elem t attrs _ _ _ =>
    t == "DIV" && attrs.contains ("data-shadow-root", "true")
      && attrs.contains ("data-shadow-host", host)
  | _ => false

/-- Is this node a text node with the given content? -/
def isTextNode (s : String) (n : DNode) : Bool :=
  match n with
  | .text t => t == s
  | _ => false

/-- The inner shadow root of the regression page: a data table. -/
def innerHostShadow : List DNode :=
  [.elem "TABLE" [("id", "data-table")] none none
    [.elem "TBODY" [] none none
      [.elem "TR" [] none none
        [.elem "TD" [] none none [.text "secret-data"]]]]]

/-- The inner shadow host, a light-DOM child of the outer host. -/
def innerHost : DNode :=
  .elem "INNER-HOST" [] (some innerHostShadow) none [.text "Light text"]

/-- The outer shadow host: its shadow root projects the light-DOM children
through a slot. -/
def outerHost : DNode :=
  .elem "OUTER-HOST" []
    (some [.elem "DIV" [("class", "outer-layout")] none none
      [.elem "SLOT" [] none none []]])
    none [innerHost]

/-- The document of the light-DOM regression scenario: a shadow root nested
inside a light-DOM child of another shadow host. -/
def lightDomRegressionPage : DNode :=
  .elem "HTML" [] none none
    [.elem "HEAD" [] none none [], .elem "BODY" [] none none [outerHost]]

/-! ## HTTP replay matching engine (`internal/scraper/testutil/replay.go`) -/

/-- The parts `net/url.Parse` extracts from the absolute http(s) URL shapes
the fixtures use: scheme, host (including any port), path, raw query. -/
structure URLParts where
  scheme : String
  host : String
  path : String
  query : String
  deriving DecidableEq, Repr

/-- Split a character list at the first occurrence of `c` (removed). -/
def breakOnChar (c : Char) : List Char → Option (List Char × List Char)
  | [] => none
  | x :: xs =>
    if x == c then some ([], xs)
    else
      match breakOnChar c xs with
      | some (l, r) => some (x :: l, r)
      | none => none

/-- `url.Parse` on simple absolute URLs: the text before "://" is the scheme,
the authority runs to the first slash, the path to the first question mark;
references without a scheme keep an empty scheme and host. -/
def parseURL (s : String) : URLParts :=
  let absolute :=
    match breakOnChar ':' s.data with
    | some (sch, '/' :: '/' :: rest) => some (sch, rest)
    | _ => none
  match absolute with
  | some (sch, rest) =>
    let hostCs := rest.takeWhile (fun c => !(c == '/'))
    let pathq := rest.dropWhile (fun c => !(c == '/'))
    let split :=
      match breakOnChar '?' pathq with
      | some (p, q) => (p, q)
      | none => (pathq, [])
    ⟨String.mk sch, String.mk hostCs, String.mk split.1, String.mk split.2⟩
  | none =>
    let split :=
      match breakOnChar '?' s.data with
      | some (p, q) => (p, q)
      | none => (s.data, [])
    ⟨"", "", String.mk split.1, String.mk split.2⟩

/-- The fallback key built by the replayer:
`parsed.Scheme + "://" + parsed.Host + parsed.Path`, query stripped. -/
def coarseKey (u : URLParts) : String :=
  u.scheme ++ "://" ++ u.host ++ u.path

/-- Coarse key of a URL string. -/
def coarseKeyOf (s : String) : String :=
  coarseKey (parseURL s)

/-- `HARContent`: response body text with its encoding flag and MIME type. -/
structure HARContent where
  mimeType : String
  text : String
  encoding : String
  deriving DecidableEq, Repr

/-- `HARRequest`, restricted to the fields the replayer reads. -/
structure HARRequest where
  method : String
  url : String
  deriving DecidableEq, Repr

/-- `HARResponse`: status, headers (name-value pairs) and content. -/
structure HARResponse where
  status : Nat
  headers : List (String × String)
  content : HARContent
  deriving DecidableEq, Repr

/-- `HAREntry`: one recorded request/response pair. -/
structure HAREntry where
  request : HARRequest
  response : HARResponse
  deriving DecidableEq, Repr

/-- `HARLog`: a loaded fixture set. -/
structure HARLog where
  entries : List HAREntry
  deriving DecidableEq, Repr

/-- The replayer state: the two lookup indexes and the passthrough flag
(the verbose flag only produces logging and is not modelled). -/
structure Replayer where
  exactMatches : List (String × HAREntry)
  pathMatches : List (String × HAREntry)
  passthrough : Bool
  deriving DecidableEq, Repr

/-- Go map lookup on an association list. -/
def assocGet (m : List (String × HAREntry)) (k : String) : Option HAREntry :=
  match m.find? (fun p => p.1 == k) with
  | some p => some p.2
  | none => none

/-- Go map insert: overwrite an existing binding, otherwise add one. -/
def assocPut (m : List (String × HAREntry)) (k : String) (v : HAREntry) :
    List (String × HAREntry) :=
  if (assocGet m k).isSome then
    m.map (fun p => if p.1 == k then (k, v) else p)
  else m ++ [(k, v)]

/-- Insert only when the key is absent (first recorded occurrence wins). -/
def assocPutIfAbsent (m : List (String × HAREntry)) (k : String) (v : HAREntry) :
    List (String × HAREntry) :=
  if (assocGet m k).isSome then m else m ++ [(k, v)]

/-- The body of the indexing loop of `NewReplayer`: store the entry under its
exact URL (overwriting), and under its coarse key only when that key is new. -/
def indexEntry (r : Replayer) (entry : HAREntry) : Replayer :=
  { r with
    exactMatches := assocPut r.exactMatches entry.request.url entry
    pathMatches :=
      assocPutIfAbsent r.pathMatches (coarseKeyOf entry.request.url) entry }

/-- `NewReplayer`: index the HAR entries, storing every entry under its exact
URL (later duplicates overwrite) and only the first entry for each coarse
(scheme, host, path) key.  The flag corresponds to the `WithPassthrough`
option, false by default. -/
def NewReplayer (har : HARLog) (passthrough : Bool) : Replayer :=
  har.entries.foldl indexEntry
    { exactMatches := [], pathMatches := [], passthrough := passthrough }

/-- The value of the first `Location` header (case-insensitive name match),
empty when absent. -/
def locationOf (resp : HARResponse) : String :=
  match resp.headers.find? (fun h => asciiLower h.1 == "location") with
  | some h => h.2
  | none => ""

/-- The exact-then-coarse lookup shared by the middleware and the redirect
follower. -/
def lookupByURL (r : Replayer) (url : String) : Option HAREntry :=
  match assocGet r.exactMatches url with
  | some e => some e
  | none => assocGet r.pathMatches (coarseKeyOf url)

/-- The redirect target of an entry: `none` when the Location header is
missing or empty, or when its URL is in neither index. -/
def redirectTarget (r : Replayer) (e : HAREntry) : Option HAREntry :=
  let loc := locationOf e.response
  if loc == "" then none else lookupByURL r loc

/-- The body of the `followRedirects` loop; the fuel is the number of
remaining iterations of the `maxRedirects` loop. -/
def followLoop (r : Replayer) : Nat → HAREntry → HAREntry
  | 0, current => current
  | fuel + 1, current =>
    if current.response.status < 300 ∨ 400 ≤ current.response.status then current
    else
      match redirectTarget r current with
      | none => current
      | some target => followLoop r fuel target

/-- `Replayer.followRedirects` with its bounded hop count `maxRedirects = 10`:
returns the final entry of the chain, or the original entry when it is not a
redirect or its target is not recorded. -/
def followRedirects (r : Replayer) (entry : HAREntry) : HAREntry :=
  followLoop r 10 entry

/-- Value of a standard base64 alphabet character. -/
def base64Val (c : Char) : Option Nat :=
  if 'A' ≤ c ∧ c ≤ 'Z' then some (c.toNat - 65)
  else if 'a' ≤ c ∧ c ≤ 'z' then some (c.toNat - 97 + 26)
  else if '0' ≤ c ∧ c ≤ '9' then some (c.toNat - 48 + 52)
  else if c == '+' then some 62
  else if c == '/' then some 63
  else none

/-- Decode standard padded base64, four characters at a time. -/
def base64Quads : List Char → Option (List Nat)
  | [] => some []
  | [a, b, '=', '='] => do
    let va ← base64Val a
    let vb ← base64Val b
    pure [va * 4 + vb / 16]
  | [a, b, c, '='] => do
    let va ← base64Val a
    let vb ← base64Val b
    let vc ← base64Val c
    pure [va * 4 + vb / 16, vb % 16 * 16 + vc / 4]
  | a :: b :: c :: d :: rest => do
    let va ← base64Val a
    let vb ← base64Val b
    let vc ← base64Val c
    let vd ← base64Val d
    let tail ← base64Quads rest
    pure ([va * 4 + vb / 16, vb % 16 * 16 + vc / 4, vc % 4 * 64 + vd] ++ tail)
  | _ => none

/-- Go `base64.StdEncoding.DecodeString`, which also skips newline and
carriage-return characters. -/
def goBase64Decode (s : String) : Option (List Nat) :=
  base64Quads (s.data.filter (fun c => !(c == '\r') && !(c == '\n')))

/-- UTF-8 bytes of a string (Go `[]byte(s)`). -/
def utf8Bytes (s : String) : List Nat :=
  s.toUTF8.toList.map (fun b => b.toNat)

/-- The hijack response payload set by the replayer. -/
structure HijackPayload where
  responseCode : Nat
  responseHeaders : List (String × String)
  body : List Nat
  deriving DecidableEq, Repr

/-- Build the served payload from a recorded response: base64 bodies are
decoded (falling back to the raw text bytes on a decode error); the
content-encoding, content-length and location headers are dropped; a
Content-Type header is added from the recorded MIME type when absent. -/
def buildPayload (resp : HARResponse) : HijackPayload :=
  let body :=
    if resp.content.encoding == "base64" then
      match goBase64Decode resp.content.text with
      | some bs => bs
      | none => utf8Bytes resp.content.text
    else utf8Bytes resp.content.text
  let kept := resp.headers.filter (fun h =>
    let n := asciiLower h.1
    !(n == "content-encoding") && !(n == "content-length") && !(n == "location"))
  let hasContentType := kept.any (fun h => asciiLower h.1 == "content-type")
  let withCT :=
    if !hasContentType && !(resp.content.mimeType == "") then
      kept ++ [("Content-Type", resp.content.mimeType)]
    else kept
  { responseCode := resp.status, responseHeaders := withCT, body := body }

/-- `Replayer.serveRecordedResponse`: follow the redirect chain, then serve
the final response of the chain as the payload. -/
def serveRecordedResponse (r : Replayer) (entry : HAREntry) : HijackPayload :=
  buildPayload (followRedirects r entry).response

/-- `Replayer.serveNotFound`: the structured 404 JSON payload served for
unmatched requests. -/
def serveNotFound (_reqURL : String) : HijackPayload :=
  { responseCode := 404
    responseHeaders := [("Content-Type", "application/json")]
    body := utf8Bytes "\x7b\"error\": \"no recording found for URL\"\x7d" }

/-- Result of the hijack middleware on one intercepted request. -/
inductive MiddlewareOutcome where
  | served (p : HijackPayload)
  | passedToNetwork
  deriving DecidableEq, Repr

/-- `Replayer.Middleware`: exact full-URL match first, then the coarse
(scheme, host, path) fallback; on a total miss, passthrough mode loads from
the live network while the default mode serves the structured 404. -/
def Middleware (r : Replayer) (reqURL : String) : MiddlewareOutcome :=
  match assocGet r.exactMatches reqURL with
  | some entry => .served (serveRecordedResponse r entry)
  | none =>
    match assocGet r.pathMatches (coarseKeyOf reqURL) with
    | some entry => .served (serveRecordedResponse r entry)
    | none =>
      if r.passthrough then .passedToNetwork
      else .served (serveNotFound reqURL)

/-- A resolvable redirect chain: from `e`, `n` redirect hops, each resolving
its Location header in the fixture set, reach the non-redirect entry `last`. -/
inductive FollowsTo (r : Replayer) : Nat → HAREntry → HAREntry → Prop where
  | done (e : HAREntry) (h : e.response.status < 300 ∨ 400 ≤ e.response.status) :
      FollowsTo r 0 e e
  | step (e target last : HAREntry) (n : Nat)
      (hstatus : 300 ≤ e.response.status ∧ e.response.status < 400)
      (htarget : redirectTarget r e = some target)
      (htail : FollowsTo r n target last) :
      FollowsTo r (n + 1) e last

/-! ## Concrete inputs used by the theorems below -/

/-- A login response page with no error code and no error message. -/
def emptyLoginDoc : LoginErrorDoc := ⟨"", "", ""⟩

/-- A transactions page whose table holds one row (as in the
`transactions_invalid` fixture scenario). -/
def oneRowPage : TransactionsPage :=
  { hasTable := true
    tableState := none
    rows := [["30-01-2026", "30-01-2026", "015", "0000001398", "*C/ HAB4ta", "bad", "0437"]] }

/-- A transactions page flagged with the no-results state. -/
def noMovementsPage : TransactionsPage :=
  { hasTable := true, tableState := some "noresults", rows := [] }

/-- 30 January 2026. -/
def sampleDate : GoDate := ⟨2026, 1, 30⟩

/-- A raw row holding the minimal int64 `Importe`. -/
def minImporteRow : BBVARow :=
  ⟨sampleDate, sampleDate, "015", "0000001398", "overflow row", -(2 ^ 63), "0437"⟩

/-- An ordinary debit row (an ITF charge of 0.90). -/
def itfRow : BBVARow :=
  ⟨sampleDate, sampleDate, "527", "0000001395", "ITF", -90, "0437"⟩

/-- The recorded dashboard response a login redirect chain ends at. -/
def dashboardEntry : HAREntry :=
  { request := { method := "GET", url := "https://bank.example/dashboard" }
    response :=
      { status := 200
        headers := [("Content-Type", "text/html")]
        content := { mimeType := "text/html", text := "<html>dashboard</html>", encoding := "" } } }

/-- The recorded 302 login submission whose Location is also recorded. -/
def loginRedirectEntry : HAREntry :=
  { request := { method := "POST", url := "https://bank.example/DFServlet" }
    response :=
      { status := 302
        headers := [("Location", "https://bank.example/dashboard")]
        content := { mimeType := "", text := "", encoding := "" } } }

/-- A replayer loaded with the redirect chain fixtures. -/
def chainReplayer : Replayer :=
  NewReplayer ⟨[loginRedirectEntry, dashboardEntry]⟩ false

/-- A recorded entry whose URL carries a query string. -/
def coarseEntry : HAREntry :=
  { request := { method := "POST", url := "https://bank.example/DFServlet?attempt=1" }
    response :=
      { status := 200
        headers := []
        content := { mimeType := "text/html", text := "<html>error page</html>", encoding := "" } } }

/-- The one-entry fixture set for the coarse-match scenario. -/
def coarseHar : HARLog := ⟨[coarseEntry]⟩

/-- The default-mode replayer over `coarseHar`. -/
def coarseReplayer : Replayer := NewReplayer coarseHar false

/-! ## Helper lemmas -/

/-- Deleting commas and spaces is idempotent. -/
lemma cleanAmount_idem (s : String) : cleanAmount (cleanAmount s) = cleanAmount s := by
  unfold cleanAmount
  congr 1
  simp [List.filter_filter]

/-- `wrap64` is the identity inside the int64 range. -/
lemma wrap64_eq_self (x : Int) (h1 : -(2 ^ 63) ≤ x) (h2 : x < 2 ^ 63) :
    wrap64 x = x := by
  unfold wrap64
  omega

/-- A non-redirect entry is returned unchanged by the redirect loop. -/
lemma followLoop_nonredirect (r : Replayer) (e : HAREntry)
    (h : e.response.status < 300 ∨ 400 ≤ e.response.status) :
    ∀ fuel, followLoop r fuel e = e := by
  intro fuel
  cases fuel with
  | zero => rfl
  | succ n =>
    unfold followLoop
    rw [if_pos h]

/-- A resolvable chain of at most `fuel` hops is followed to its end. -/
lemma followLoop_chain (r : Replayer) {n : Nat} {e last : HAREntry}
    (h : FollowsTo r n e last) :
    ∀ fuel, n ≤ fuel → followLoop r fuel e = last := by
  induction h with
  | done e he =>
    intro fuel _
    exact followLoop_nonredirect r e he fuel
  | step e target last n hstatus htarget htail ih =>
    intro fuel hn
    cases fuel with
    | zero => omega
    | succ m =>
      unfold followLoop
      rw [if_neg (by omega), htarget]
      exact ih m (by omega)

/-- Lookup after a conditional insert. -/
lemma assocGet_putIfAbsent (m : List (String × HAREntry)) (k k2 : String)
    (v : HAREntry) :
    assocGet (assocPutIfAbsent m k2 v) k =
      match assocGet m k with
      | some w => some w
      | none => if k = k2 then some v else none := by
  unfold assocPutIfAbsent
  by_cases hk2 : (assocGet m k2).isSome
  · rw [if_pos hk2]
    cases hmk : assocGet m k with
    | some w => simp
    | none =>
      by_cases hkk : k = k2
      · subst hkk
        rw [hmk] at hk2
        simp at hk2
      · simp [hkk]
  · rw [if_neg hk2]
    unfold assocGet
    rw [List.find?_append]
    cases hmk : assocGet m k with
    | some w =>
      unfold assocGet at hmk
      cases hf : m.find? (fun p => p.1 == k) with
      | none => rw [hf] at hmk; simp at hmk
      | some p => rw [hf] at hmk; simp at hmk; simp [hf, hmk]
    | none =>
      unfold assocGet at hmk
      cases hf : m.find? (fun p => p.1 == k) with
      | some p => rw [hf] at hmk; simp at hmk
      | none =>
        simp only [Option.none_or]
        by_cases hkk : k = k2
        · subst hkk
          simp [List.find?]
        · have hkk2 : (k2 == k) = false := by
            simp only [beq_eq_false_iff_ne, ne_eq]
            exact fun h => hkk h.symm
          simp [List.find?, hkk, hkk2]

/-- The path index built by the fold resolves a key to the first entry whose
coarse key matches, unless the initial index already bound the key. -/
lemma foldl_pathMatches (k : String) :
    ∀ (es : List HAREntry) (init : Replayer),
      assocGet (es.foldl indexEntry init).pathMatches k =
        match assocGet init.pathMatches k with
        | some w => some w
        | none => es.find? (fun e => coarseKeyOf e.request.url == k) := by
  intro es
  induction es with
  | nil =>
    intro init
    show assocGet init.pathMatches k = _
    cases assocGet init.pathMatches k <;> simp [List.find?]
  | cons e es ih =>
    intro init
    rw [List.foldl_cons, ih]
    have hstep : assocGet (indexEntry init e).pathMatches k =
        match assocGet init.pathMatches k with
        | some w => some w
        | none => if k = coarseKeyOf e.request.url then some e else none := by
      unfold indexEntry
      exact assocGet_putIfAbsent init.pathMatches k (coarseKeyOf e.request.url) e
    rw [hstep]
    cases hmk : assocGet init.pathMatches k with
    | some w => simp
    | none =>
      by_cases hkk : k = coarseKeyOf e.request.url
      · simp [List.find?, hkk]
      · have : (coarseKeyOf e.request.url == k) = false := by
          simp
          exact fun h => hkk h.symm
        simp [List.find?, this, hkk]

/-- The fold never changes the passthrough flag. -/
lemma foldl_passthrough :
    ∀ (es : List HAREntry) (init : Replayer),
      (es.foldl indexEntry init).passthrough = init.passthrough := by
  intro es
  induction es with
  | nil => intro init; rfl
  | cons e es ih =>
    intro init
    rw [List.foldl_cons, ih]
    rfl

/-- The coarse index of a fresh replayer resolves each key to the first
recorded entry with that coarse key. -/
lemma newReplayer_pathMatches (har : HARLog) (pt : Bool) (k : String) :
    assocGet (NewReplayer har pt).pathMatches k =
      har.entries.find? (fun e => coarseKeyOf e.request.url == k) := by
  unfold NewReplayer
  rw [foldl_pathMatches]
  rfl

/-- A fresh replayer keeps the requested passthrough mode. -/
lemma newReplayer_passthrough (har : HARLog) (pt : Bool) :
    (NewReplayer har pt).passthrough = pt := by
  unfold NewReplayer
  rw [foldl_passthrough]

/-! ## Claim theorems -/

/-- C1 (code bug): on the document where a shadow root sits inside a
light-DOM child of another shadow host, the committed flattener counts only
the outer shadow root and leaves the inner one unflattened — the shadow
marker for the inner host and the inner shadow content are both absent from
the serialised output, while the outer marker is present.  The shadow branch
of `flattenElement` recurses into the shadow children only and never into the
light-DOM children of a shadow host, contradicting the claimed traversal and
the regression test `TestFlattenShadowDOM_LightDOMChildren`. -/
theorem C1_lightdom_nested_shadow_dropped :
    (FlattenShadowDOM lightDomRegressionPage).2.1 = 1
      ∧ (FlattenShadowDOM lightDomRegressionPage).2.2 = 0
      ∧ nodeVisContains (isShadowMarkerFor "outer-host")
          (FlattenShadowDOM lightDomRegressionPage).1 = true
      ∧ nodeVisContains (isShadowMarkerFor "inner-host")
          (FlattenShadowDOM lightDomRegressionPage).1 = false
      ∧ nodeVisContains (isTextNode "secret-data")
          (FlattenShadowDOM lightDomRegressionPage).1 = false := by
  decide

/-- C2 (code bug): a login submission with HTTP status 503 or 429 is detected
by `DetectLoginError` as the unavailable/rate-limited error, but the
classification step of `BBVAScraper.Login` assigns cause
`ErrInvalidCredentials` to every detected login error whose status is not
403, so the outcome for 503 and 429 is InvalidCredentials, not
BankUnavailable. -/
theorem C2_unavailable_status_misclassified :
    DetectLoginError emptyLoginDoc 503 =
        some ⟨"", "Bank service temporarily unavailable or rate limited", 503⟩
      ∧ DetectLoginError emptyLoginDoc 429 =
        some ⟨"", "Bank service temporarily unavailable or rate limited", 429⟩
      ∧ classifyLogin emptyLoginDoc 503 false = .invalidCredentials
      ∧ classifyLogin emptyLoginDoc 429 false = .invalidCredentials
      ∧ classifyLogin emptyLoginDoc 503 false ≠ .bankUnavailable
      ∧ classifyLogin emptyLoginDoc 429 false ≠ .bankUnavailable := by
  decide

/-- C3 (code bug): on a transactions page with one table row,
`ParseTransactions` panics with "fix me" through the committed
`parseTransactionRow` stub instead of returning the row-indexed
`ParsingFailed` error the claim (and `TestParseTransactions_InvalidRow`)
describe. -/
theorem C3_row_stub_panics :
    ParseTransactions oneRowPage = .panicked "fix me" := by
  decide

/-- C4: a matched entry whose recorded response chains through redirects,
each resolving its Location in the fixture set (exactly or coarsely), is
followed to the final non-redirect entry of the chain whenever the chain is
within the bounded hop count, and that final response is the one served. -/
theorem C4_redirect_chain_serves_final (r : Replayer) (n : Nat)
    (e last : HAREntry) (hchain : FollowsTo r n e last) (hbound : n ≤ 10) :
    followRedirects r e = last
      ∧ serveRecordedResponse r e = buildPayload last.response := by
  have h : followLoop r 10 e = last := followLoop_chain r hchain 10 hbound
  refine ⟨h, ?_⟩
  unfold serveRecordedResponse followRedirects
  rw [h]

/-- C4 witness: the recorded 302 login submission resolves to the recorded
dashboard response. -/
theorem C4_redirect_chain_witness :
    followRedirects chainReplayer loginRedirectEntry = dashboardEntry
      ∧ serveRecordedResponse chainReplayer loginRedirectEntry
          = buildPayload dashboardEntry.response :=
  C4_redirect_chain_serves_final chainReplayer 1 loginRedirectEntry dashboardEntry
    (FollowsTo.step loginRedirectEntry dashboardEntry dashboardEntry 0
      (by decide) (by decide)
      (FollowsTo.done dashboardEntry (by decide)))
    (by decide)

/-- C5: the middleware tries the exact full-URL index first; on a miss the
coarse (scheme, host, path) index — which always resolves to the first
recorded entry for that coarse key — decides; on a total miss in default
(non-passthrough) mode the structured 404 payload is served rather than the
request being passed through. -/
theorem C5_exact_then_coarse_then_404 (har : HARLog) (reqURL : String)
    (r : Replayer) (hr : r = NewReplayer har false) :
    (∀ e, assocGet r.exactMatches reqURL = some e →
        Middleware r reqURL = .served (serveRecordedResponse r e))
      ∧ assocGet r.pathMatches (coarseKeyOf reqURL) =
          har.entries.find?
            (fun en => coarseKeyOf en.request.url == coarseKeyOf reqURL)
      ∧ (assocGet r.exactMatches reqURL = none →
          ∀ e, assocGet r.pathMatches (coarseKeyOf reqURL) = some e →
            Middleware r reqURL = .served (serveRecordedResponse r e))
      ∧ (assocGet r.exactMatches reqURL = none →
          assocGet r.pathMatches (coarseKeyOf reqURL) = none →
            Middleware r reqURL = .served (serveNotFound reqURL)
              ∧ (serveNotFound reqURL).responseCode = 404) := by
  refine ⟨?_, ?_, ?_, ?_⟩
  · intro e he
    unfold Middleware
    rw [he]
  · rw [hr]
    exact newReplayer_pathMatches har false _
  · intro hnone e he
    unfold Middleware
    rw [hnone, he]
  · intro h1 h2
    have hpt : r.passthrough = false := by
      rw [hr]
      exact newReplayer_passthrough har false
    constructor
    · unfold Middleware
      rw [h1, h2, hpt]
      rfl
    · rfl

/-- C5 witness: a request differing only in its query string falls back to
the coarse match and is served from the single recorded entry. -/
theorem C5_coarse_fallback_witness :
    Middleware coarseReplayer "https://bank.example/DFServlet?attempt=2" =
      .served (serveRecordedResponse coarseReplayer coarseEntry) :=
  ((C5_exact_then_coarse_then_404 coarseHar
      "https://bank.example/DFServlet?attempt=2" coarseReplayer rfl).2.2.1)
    (by decide) coarseEntry (by decide)

/-- C6: a transactions page whose data container carries the explicit
"noresults" state attribute parses to the empty, non-nil transaction slice
with a nil error. -/
theorem C6_noresults_returns_empty (page : TransactionsPage)
    (h1 : page.hasTable = true) (h2 : page.tableState = some "noresults") :
    ParseTransactions page = .ok [] := by
  have hnm : hasNoMovements page = true := by
    simp [hasNoMovements, h1, h2]
  simp [ParseTransactions, hnm]

/-- C6 witness. -/
theorem C6_noresults_witness : ParseTransactions noMovementsPage = .ok [] :=
  C6_noresults_returns_empty noMovementsPage rfl rfl

/-- C7 counterexample: at the minimal int64 `Importe`, the two's-complement
negation in `ToTransaction` wraps, so the stored amount is `-2^63` — negative
and different from the absolute raw value — refuting the claim as stated for
every raw row. -/
theorem C7_min_int64_counterexample :
    minImporteRow.ToTransaction.amount = -(2 ^ 63)
      ∧ minImporteRow.ToTransaction.amount < 0
      ∧ minImporteRow.ToTransaction.amount ≠ |minImporteRow.importe|
      ∧ minImporteRow.ToTransaction.txnType = .debit := by
  decide

/-- C7 amended: for every raw row whose int64 `Importe` is not the minimal
value `-2^63`, the normalized amount equals the absolute raw value (hence is
non-negative) and the direction is CREDIT exactly when the raw value is
positive, DEBIT otherwise. -/
theorem C7_amount_abs_direction (r : BBVARow)
    (hlo : -(2 ^ 63) ≤ r.importe) (hhi : r.importe < 2 ^ 63)
    (hmin : r.importe ≠ -(2 ^ 63)) :
    r.ToTransaction.amount = |r.importe|
      ∧ 0 ≤ r.ToTransaction.amount
      ∧ r.ToTransaction.txnType =
          (if 0 < r.importe then TransactionType.credit else TransactionType.debit) := by
  unfold BBVARow.ToTransaction BBVARow.IsPositiveImport
  by_cases hp : 0 < r.importe
  · simp [hp, abs_of_pos hp]
    omega
  · have hle : r.importe ≤ 0 := not_lt.mp hp
    have h1 : wrap64 (-r.importe) = -r.importe :=
      wrap64_eq_self _ (by omega) (by omega)
    simp [hp, h1, abs_of_nonpos hle]
    omega

/-- C7 amended witness: an ordinary debit row. -/
theorem C7_amount_abs_direction_witness :
    itfRow.ToTransaction.amount = |itfRow.importe|
      ∧ 0 ≤ itfRow.ToTransaction.amount
      ∧ itfRow.ToTransaction.txnType =
          (if 0 < itfRow.importe then TransactionType.credit else TransactionType.debit) :=
  C7_amount_abs_direction itfRow (by decide) (by decide) (by decide)

/-- C8: the `ParseSpanishAmount` vectors hold — "12,345.67" gives 1234567
cents, "123" gives 12300 cents, "" and ".,  ." fail — and the routine first
strips every comma and space, so it is invariant under that stripping. -/
theorem C8_spanish_amount_vectors :
    ParseSpanishAmount "12,345.67" = some 1234567
      ∧ ParseSpanishAmount "123" = some 12300
      ∧ ParseSpanishAmount "" = none
      ∧ ParseSpanishAmount ".,  ." = none
      ∧ ∀ s : String, ParseSpanishAmount s = ParseSpanishAmount (cleanAmount s) := by
  refine ⟨by decide, by decide, by decide, by decide, fun s => ?_⟩
  unfold ParseSpanishAmount
  rw [cleanAmount_idem]

/-- C9: `ParseBankDate` accepts exactly the fixed day-month-year layout —
"30-01-2026" parses to 2026-01-30, while the month-day ordering
"01-30-2026" and the empty string are rejected. -/
theorem C9_bank_date_vectors :
    ParseBankDate "30-01-2026" = some sampleDate
      ∧ ParseBankDate "01-30-2026" = none
      ∧ ParseBankDate "" = none := by
  decide

/-- C10: `ParseSpanishAmount` deletes every comma and every space before
parsing, so its result on any string equals its result on the stripped
string; consequently "1,2,3.4" parses to 12340 cents and "4 5" to 4500 cents
instead of being rejected. -/
theorem C10_strip_commas_spaces_everywhere :
    (∀ s : String, ParseSpanishAmount s = ParseSpanishAmount (cleanAmount s))
      ∧ ParseSpanishAmount "1,2,3.4" = some 12340
      ∧ ParseSpanishAmount "4 5" = some 4500 := by
  refine ⟨fun s => ?_, by decide, by decide⟩
  unfold ParseSpanishAmount
  rw [cleanAmount_idem]

end BankScraper
